import Mathlib

/-!
Verification of the parent-student linking subsystem of `src/server.ts`.

The SQLite tables `linking_codes`, `parent_student_links` and the relevant
columns of `users` are modelled as lists of rows in insertion (rowid) order;
`.get` on a prepared SELECT returns the first matching row, modelled by
`List.find?`.  ISO-8601 timestamp strings produced by `toISOString` compare
lexicographically exactly as the instants they denote, so timestamps are
modelled as natural numbers (milliseconds) and string comparison as `<` on
`Nat`.  `Math.random`-based code and id generation is modelled by passing the
freshly generated strings as explicit arguments.  A thrown exception that the
route handler does not catch is modelled as `Except.error`.
-/

/-- A row of the `linking_codes` table: `used INTEGER DEFAULT 0` as `Bool`. -/
structure LinkingCode where
  id : String
  studentId : String
  code : String
  expiresAt : Nat
  used : Bool
deriving Repr, DecidableEq

/-- A row of the `parent_student_links` table. -/
structure LinkRow where
  id : String
  parentId : String
  studentId : String
  status : String
  createdAt : Nat
deriving Repr, DecidableEq

/-- The columns of the `users` table read by the linking endpoints. -/
structure UserRow where
  id : String
  fullName : String
  email : String
deriving Repr, DecidableEq

/-- The two tables of the linking subsystem, rows in insertion order. -/
structure DB where
  linking_codes : List LinkingCode
  parent_student_links : List LinkRow
deriving Repr, DecidableEq

/-- A JSON response: HTTP status, the `success` flag and the `message` field
(`""` when the handler sends no message). -/
structure Resp where
  httpStatus : Nat
  success : Bool
  message : String
deriving Repr, DecidableEq

/-- `SELECT * FROM linking_codes WHERE studentId = ? AND used = 0 AND
expiresAt > ?` followed by `.get` (first matching row). -/
def findValidForStudent (db : DB) (studentId : String) (now : Nat) :
    Option LinkingCode :=
  db.linking_codes.find? fun c =>
    c.studentId == studentId && c.used == false && now < c.expiresAt

/-- `SELECT * FROM linking_codes WHERE code = ? AND used = 0 AND
expiresAt > ?` followed by `.get` (first matching row). -/
def findValidByCode (db : DB) (code : String) (now : Nat) :
    Option LinkingCode :=
  db.linking_codes.find? fun c =>
    c.code == code && c.used == false && now < c.expiresAt

/-- 24 hours in milliseconds: `24 * 60 * 60 * 1000`. -/
def dayMs : Nat := 24 * 60 * 60 * 1000

/-- The raw SQLite error raised by an INSERT violating the `code TEXT UNIQUE`
constraint (or the `id` primary key) of `linking_codes`. -/
def sqliteUniqueMsg : String := "UNIQUE constraint failed: linking_codes"

/-- `GET /api/student/linking-code`.  Returns the existing valid code if one
exists; otherwise inserts a freshly generated one expiring in 24 hours.
`freshCode` and `freshId` stand for the values of `generateLinkingCode()` and
`Math.random().toString(36).substr(2, 9)`.  The INSERT is not wrapped in
try/catch, so a violation of the `code TEXT UNIQUE` constraint (or of the
`id` primary key) escapes the handler as an exception (`Except.error`). -/
def requestCode (db : DB) (studentId : String) (now : Nat)
    (freshCode freshId : String) : Except String (Resp × String × Nat × DB) :=
  match findValidForStudent db studentId now with
  | some existing =>
      .ok (⟨200, true, ""⟩, existing.code, existing.expiresAt, db)
  | none =>
      if db.linking_codes.any (fun c => c.code == freshCode)
          || db.linking_codes.any (fun c => c.id == freshId) then
        .error sqliteUniqueMsg
      else
        let row : LinkingCode :=
          ⟨freshId, studentId, freshCode, now + dayMs, false⟩
        .ok (⟨200, true, ""⟩, freshCode, now + dayMs,
          { db with linking_codes := db.linking_codes ++ [row] })

/-- The handler's message for an invalid or expired code. -/
def invalidCodeMsg : String := "الكود غير صالح أو منتهي الصلاحية"

/-- The handler's message for a duplicate link request. -/
def duplicateLinkMsg : String := "طلب الربط موجود بالفعل"

/-- The handler's message for a successfully created link request. -/
def linkCreatedMsg : String := "تم إرسال طلب الربط بنجاح"

/-- `POST /api/parent/link-request`.  Validates the code; on success tries to
INSERT a pending row into `parent_student_links`, whose
`UNIQUE(parentId, studentId)` constraint (or an `id` collision) makes the
INSERT throw; the catch block turns any such error into a 400 response.
`freshLinkId` stands for the generated row id. -/
def redeemCode (db : DB) (parentId code : String) (now : Nat)
    (freshLinkId : String) : Resp × DB :=
  match findValidByCode db code now with
  | none => (⟨400, false, invalidCodeMsg⟩, db)
  | some codeData =>
      let studentId := codeData.studentId
      if db.parent_student_links.any
            (fun l => l.parentId == parentId && l.studentId == studentId)
          || db.parent_student_links.any (fun l => l.id == freshLinkId) then
        (⟨400, false, duplicateLinkMsg⟩, db)
      else
        (⟨200, true, linkCreatedMsg⟩,
          { db with parent_student_links := db.parent_student_links ++
              [⟨freshLinkId, parentId, studentId, "pending", now⟩] })

/-- The TypeError raised by `link.studentId` when the SELECT after the
approval UPDATE finds no row. -/
def typeErrorMsg : String :=
  "TypeError: Cannot read properties of undefined (reading studentId)"

/-- One row's effect of `UPDATE parent_student_links SET status = ?
WHERE id = ?`. -/
def setStatusRow (id status : String) (l : LinkRow) : LinkRow :=
  if l.id == id then { l with status := status } else l

/-- One row's effect of `UPDATE linking_codes SET used = 1
WHERE studentId = ?`. -/
def markUsedRow (studentId : String) (c : LinkingCode) : LinkingCode :=
  if c.studentId == studentId then { c with used := true } else c

/-- `PATCH /api/student/link-requests/:id`.  Runs
`UPDATE parent_student_links SET status = ? WHERE id = ?` unconditionally;
when the requested status is `approved` it then reads the row's `studentId`
(throwing a TypeError when no row has that id) and runs
`UPDATE linking_codes SET used = 1 WHERE studentId = ?`. -/
def decideLinkRequest (db : DB) (id status : String) :
    Except String (Resp × DB) :=
  let links := db.parent_student_links.map (setStatusRow id status)
  let db1 : DB := { db with parent_student_links := links }
  if status == "approved" then
    match db1.parent_student_links.find? (fun l => l.id == id) with
    | none => .error typeErrorMsg
    | some link =>
        .ok (⟨200, true, ""⟩,
          { db1 with linking_codes :=
              db1.linking_codes.map (markUsedRow link.studentId) })
  else
    .ok (⟨200, true, ""⟩, db1)

/-- A row of the response of `GET /api/student/link-requests`: the link row
joined with the parent's display fields. -/
structure PendingView where
  id : String
  parentId : String
  studentId : String
  status : String
  createdAt : Nat
  parentName : String
  parentEmail : String
deriving Repr, DecidableEq

/-- `GET /api/student/link-requests`: pending rows of the student inner-JOINed
with `users` on `l.parentId = u.id`.  `users.id` is the primary key, so each
link row matches at most one user, modelled by `List.find?`; a link row whose
`parentId` matches no user produces no output row. -/
def listPending (users : List UserRow) (db : DB) (studentId : String) :
    List PendingView :=
  (db.parent_student_links.filter
      (fun l => l.studentId == studentId && l.status == "pending")).filterMap
    fun l =>
      (users.find? (fun u => u.id == l.parentId)).map fun u =>
        ⟨l.id, l.parentId, l.studentId, l.status, l.createdAt,
          u.fullName, u.email⟩

/-- The `UNIQUE(parentId, studentId)` invariant: no two rows of
`parent_student_links` share the same (parent, student) pair. -/
def pairUnique (db : DB) : Prop :=
  db.parent_student_links.Pairwise
    fun a b => ¬(a.parentId = b.parentId ∧ a.studentId = b.studentId)

/-! ### Helper lemmas -/

/-- The status UPDATE leaves `id` intact. -/
@[simp] lemma setStatusRow_id (rid s : String) (l : LinkRow) :
    (setStatusRow rid s l).id = l.id := by
  unfold setStatusRow; split <;> rfl

/-- The status UPDATE leaves `parentId` intact. -/
@[simp] lemma setStatusRow_parentId (rid s : String) (l : LinkRow) :
    (setStatusRow rid s l).parentId = l.parentId := by
  unfold setStatusRow; split <;> rfl

/-- The status UPDATE leaves `studentId` intact. -/
@[simp] lemma setStatusRow_studentId (rid s : String) (l : LinkRow) :
    (setStatusRow rid s l).studentId = l.studentId := by
  unfold setStatusRow; split <;> rfl

/-- A row whose `id` differs from the UPDATE's WHERE clause is untouched. -/
lemma setStatusRow_of_ne (rid s : String) (l : LinkRow)
    (h : ¬(l.id = rid)) : setStatusRow rid s l = l := by
  unfold setStatusRow
  rw [if_neg (fun hb => h (beq_iff_eq.1 hb))]

/-- The `used` UPDATE leaves `id` intact. -/
@[simp] lemma markUsedRow_id (sid : String) (c : LinkingCode) :
    (markUsedRow sid c).id = c.id := by
  unfold markUsedRow; split <;> rfl

/-- The `used` UPDATE leaves `studentId` intact. -/
@[simp] lemma markUsedRow_studentId (sid : String) (c : LinkingCode) :
    (markUsedRow sid c).studentId = c.studentId := by
  unfold markUsedRow; split <;> rfl

/-- The `used` UPDATE leaves `code` intact. -/
@[simp] lemma markUsedRow_code (sid : String) (c : LinkingCode) :
    (markUsedRow sid c).code = c.code := by
  unfold markUsedRow; split <;> rfl

/-- The `used` UPDATE sets `used` on the rows its WHERE clause selects. -/
lemma markUsedRow_used_of_eq (sid : String) (c : LinkingCode)
    (h : c.studentId = sid) : (markUsedRow sid c).used = true := by
  unfold markUsedRow
  rw [if_pos (beq_iff_eq.2 h)]

/-- A code row of another student is untouched by the `used` UPDATE. -/
lemma markUsedRow_of_ne (sid : String) (c : LinkingCode)
    (h : ¬(c.studentId = sid)) : markUsedRow sid c = c := by
  unfold markUsedRow
  rw [if_neg (fun hb => h (beq_iff_eq.1 hb))]

/-- Searching by `id` commutes with the status UPDATE. -/
lemma find?_id_map_setStatus (ls : List LinkRow) (rid s : String) (R : LinkRow)
    (h : ls.find? (fun l => l.id == rid) = some R) :
    (ls.map (setStatusRow rid s)).find? (fun l => l.id == rid)
      = some (setStatusRow rid s R) := by
  rw [List.find?_map]
  have hcomp : ((fun l : LinkRow => l.id == rid) ∘ setStatusRow rid s)
      = fun l => l.id == rid := by
    funext l
    simp [Function.comp_apply]
  rw [hcomp, h, Option.map_some']

/-- Every row of the status-updated list whose `id` matches the WHERE clause
carries the new status. -/
lemma status_of_mem_map_setStatus (ls : List LinkRow) (rid s : String)
    (l : LinkRow) (hl : l ∈ ls.map (setStatusRow rid s)) (hid : l.id = rid) :
    l.status = s := by
  rcases List.mem_map.1 hl with ⟨l0, _, rfl⟩
  unfold setStatusRow at hid ⊢
  by_cases h0 : (l0.id == rid) = true
  · rw [if_pos h0]
  · rw [if_neg h0] at hid ⊢
    exact absurd (beq_iff_eq.2 hid) h0

/-! ### C2 -/

/-- C2: when no `linking_codes` row matches the submitted code with
`used = 0` and an unexpired `expiresAt`, `redeemCode` answers
HTTP 400 with `success = false` and the invalid-code message and leaves the
database (in particular `parent_student_links`) unchanged. -/
theorem redeemCode_unknown_code_fails (db : DB) (P c : String) (now : Nat)
    (fid : String)
    (h : ∀ r ∈ db.linking_codes,
      ¬(r.code = c ∧ r.used = false ∧ now < r.expiresAt)) :
    redeemCode db P c now fid = (⟨400, false, invalidCodeMsg⟩, db) := by
  have hnone : findValidByCode db c now = none := by
    rw [findValidByCode, List.find?_eq_none]
    intro r hr hcontra
    simp only [Bool.and_eq_true, beq_iff_eq, decide_eq_true_eq] at hcontra
    exact h r hr ⟨hcontra.1.1, hcontra.1.2, hcontra.2⟩
  rw [redeemCode, hnone]

/-- Witness for C2 at a concrete store holding one expired code. -/
theorem redeemCode_unknown_code_fails_witness :
    redeemCode ⟨[⟨"i1", "S1", "STU-AAAAAA", 10, false⟩], []⟩ "P1" "STU-AAAAAA"
      20 "L1"
      = (⟨400, false, invalidCodeMsg⟩,
        ⟨[⟨"i1", "S1", "STU-AAAAAA", 10, false⟩], []⟩) :=
  redeemCode_unknown_code_fails _ "P1" "STU-AAAAAA" 20 "L1" (by decide)

/-- Full behavior of `decideLinkRequest` for a non-`approved` status: the
WHERE-matched rows get the new status and `linking_codes` is untouched. -/
lemma decideLinkRequest_not_approved (db : DB) (rid s : String)
    (hs : ¬ s = "approved") :
    decideLinkRequest db rid s = .ok (⟨200, true, ""⟩,
      ⟨db.linking_codes,
       db.parent_student_links.map (setStatusRow rid s)⟩) := by
  simp only [decideLinkRequest]
  rw [if_neg (fun hb => hs (beq_iff_eq.mp hb))]

/-- Full behavior of `decideLinkRequest` on approval when the row exists:
the status UPDATE runs, then every code row of the request's student is
marked used. -/
lemma decideLinkRequest_approved (db : DB) (rid : String) (R : LinkRow)
    (hR : db.parent_student_links.find? (fun l => l.id == rid) = some R) :
    decideLinkRequest db rid "approved" = .ok (⟨200, true, ""⟩,
      ⟨db.linking_codes.map (markUsedRow R.studentId),
       db.parent_student_links.map (setStatusRow rid "approved")⟩) := by
  simp only [decideLinkRequest]
  rw [if_pos (beq_self_eq_true "approved"),
    find?_id_map_setStatus _ _ _ _ hR]
  simp [setStatusRow_studentId]

/-! ### C4 -/

/-- C4 counterexample: the PATCH handler's UPDATE carries no
`WHERE status = 'pending'` guard, so after `L1` reaches the terminal state
`approved`, a further call flips it to `rejected` — the status does not
transition exactly once. -/
theorem decideLinkRequest_terminal_not_frozen :
    decideLinkRequest ⟨[], [⟨"L1", "P1", "S1", "pending", 0⟩]⟩ "L1" "approved"
      = .ok (⟨200, true, ""⟩, ⟨[], [⟨"L1", "P1", "S1", "approved", 0⟩]⟩) ∧
    decideLinkRequest ⟨[], [⟨"L1", "P1", "S1", "approved", 0⟩]⟩ "L1"
        "rejected"
      = .ok (⟨200, true, ""⟩, ⟨[], [⟨"L1", "P1", "S1", "rejected", 0⟩]⟩) :=
  ⟨rfl, rfl⟩

/-- C4 amended: `decideLinkRequest` writes the given status unconditionally
into every row whose `id` matches — a pending request does transition to
`approved` or `rejected`, but a request already in a terminal state is not
frozen: any later call overwrites its status again. -/
theorem decideLinkRequest_overwrites_status (db : DB) (rid s : String)
    (R : LinkRow) (resp : Resp) (db' : DB)
    (hR : db.parent_student_links.find? (fun l => l.id == rid) = some R)
    (hdec : decideLinkRequest db rid s = .ok (resp, db')) :
    resp = ⟨200, true, ""⟩ ∧
    ∀ l ∈ db'.parent_student_links, l.id = rid → l.status = s := by
  by_cases hs : s = "approved"
  · subst hs
    rw [decideLinkRequest_approved db rid R hR] at hdec
    obtain ⟨hresp, hdb⟩ := Prod.mk.injEq .. ▸ (Except.ok.inj hdec)
    refine ⟨hresp.symm, ?_⟩
    intro l hl hid
    rw [← hdb] at hl
    exact status_of_mem_map_setStatus _ _ _ _ hl hid
  · rw [decideLinkRequest_not_approved db rid s hs] at hdec
    obtain ⟨hresp, hdb⟩ := Prod.mk.injEq .. ▸ (Except.ok.inj hdec)
    refine ⟨hresp.symm, ?_⟩
    intro l hl hid
    rw [← hdb] at hl
    exact status_of_mem_map_setStatus _ _ _ _ hl hid

/-- Witness for C4 amended: rejecting the already-approved request `L1`
really rewrites its terminal status. -/
theorem decideLinkRequest_overwrites_status_witness :
    (⟨"L1", "P1", "S1", "rejected", 0⟩ : LinkRow).status = "rejected" :=
  (decideLinkRequest_overwrites_status
    ⟨[], [⟨"L1", "P1", "S1", "approved", 0⟩]⟩ "L1" "rejected"
    ⟨"L1", "P1", "S1", "approved", 0⟩ ⟨200, true, ""⟩
    ⟨[], [⟨"L1", "P1", "S1", "rejected", 0⟩]⟩ (by rfl) (by rfl)).2
    ⟨"L1", "P1", "S1", "rejected", 0⟩ (by simp) rfl

/-- Searching by `id` also finds nothing after the status UPDATE when it
found nothing before. -/
lemma find?_id_map_setStatus_none (ls : List LinkRow) (rid s : String)
    (h : ls.find? (fun l => l.id == rid) = none) :
    (ls.map (setStatusRow rid s)).find? (fun l => l.id == rid) = none := by
  rw [List.find?_map]
  have hcomp : ((fun l : LinkRow => l.id == rid) ∘ setStatusRow rid s)
      = fun l => l.id == rid := by
    funext l
    simp [Function.comp_apply]
  rw [hcomp, h, Option.map_none']

/-! ### C6 -/

/-- C6 counterexample: approving an id with no `parent_student_links` row
makes `link.studentId` dereference `undefined` — an unhandled TypeError, not
a structured `NotFound` failure. -/
theorem decideLinkRequest_unknown_id_throws :
    decideLinkRequest ⟨[], []⟩ "missing" "approved" = .error typeErrorMsg :=
  rfl

/-- C6 amended: for an id with no matching row, `decide(id, approved)`
escapes with an unhandled TypeError (no structured `NotFound` failure
exists), while `decide(id, rejected)` silently reports success and changes
nothing. -/
theorem decideLinkRequest_unknown_id (db : DB) (rid : String)
    (h : db.parent_student_links.find? (fun l => l.id == rid) = none) :
    decideLinkRequest db rid "approved" = .error typeErrorMsg ∧
    decideLinkRequest db rid "rejected" = .ok (⟨200, true, ""⟩, db) := by
  have hall := List.find?_eq_none.mp h
  constructor
  · simp only [decideLinkRequest]
    rw [if_pos (beq_self_eq_true "approved"),
      find?_id_map_setStatus_none _ _ _ h]
  · rw [decideLinkRequest_not_approved db rid "rejected" (by decide)]
    have hmap : db.parent_student_links.map (setStatusRow rid "rejected")
        = db.parent_student_links := by
      calc db.parent_student_links.map (setStatusRow rid "rejected")
          = db.parent_student_links.map id :=
            List.map_congr_left fun l hl =>
              setStatusRow_of_ne rid "rejected" l
                (fun he => hall l hl (beq_iff_eq.mpr he))
        _ = db.parent_student_links := List.map_id _
    rw [hmap]

/-- Witness for C6 amended at the empty store. -/
theorem decideLinkRequest_unknown_id_witness :
    decideLinkRequest ⟨[], []⟩ "x" "approved" = .error typeErrorMsg ∧
    decideLinkRequest ⟨[], []⟩ "x" "rejected"
      = .ok (⟨200, true, ""⟩, ⟨[], []⟩) :=
  decideLinkRequest_unknown_id ⟨[], []⟩ "x" (by rfl)

/-! ### C7 -/

/-- C7 counterexample: when the single generated code collides with an
existing `code` value, the INSERT's uniqueness violation escapes at once —
there is no `CodeCollision` retry and no `CodeGenerationFailed` after a
retry budget. -/
theorem requestCode_collision_no_retry :
    requestCode ⟨[⟨"i1", "T1", "STU-AAAAAA", 10, true⟩], []⟩ "S1" 20
        "STU-AAAAAA" "i2"
      = .error sqliteUniqueMsg :=
  rfl

/-- C7 amended: with no valid code outstanding for the student, a collision
between the one freshly generated code and any existing `code` value makes
`requestCode` fail immediately with the raw SQLite uniqueness error; the
handler never retries generation. -/
theorem requestCode_collision_raw_error (db : DB) (S : String) (now : Nat)
    (g i : String)
    (hnov : findValidForStudent db S now = none)
    (hcol : db.linking_codes.any (fun c => c.code == g) = true) :
    requestCode db S now g i = .error sqliteUniqueMsg := by
  simp only [requestCode, hnov, hcol, Bool.true_or, ite_true]

/-- Witness for C7 amended: a second student's expired code already occupies
the generated value. -/
theorem requestCode_collision_raw_error_witness :
    requestCode ⟨[⟨"i1", "T1", "STU-AAAAAA", 10, true⟩], []⟩ "S2" 30
        "STU-AAAAAA" "i9"
      = .error sqliteUniqueMsg :=
  requestCode_collision_raw_error _ "S2" 30 "STU-AAAAAA" "i9"
    (by rfl) (by rfl)

/-- The status UPDATE preserves the (parent, student) pairs, hence their
pairwise distinctness. -/
lemma pairwise_setStatus (ls : List LinkRow) (rid s : String)
    (h : ls.Pairwise
      fun a b => ¬(a.parentId = b.parentId ∧ a.studentId = b.studentId)) :
    (ls.map (setStatusRow rid s)).Pairwise
      fun a b => ¬(a.parentId = b.parentId ∧ a.studentId = b.studentId) := by
  rw [List.pairwise_map]
  exact h.imp fun hab hcontra => hab (by simpa using hcontra)

/-! ### C1 -/

/-- C1: the `UNIQUE(parentId, studentId)` constraint keeps at most one
`parent_student_links` row per (parent, student) pair across `redeemCode`
and `decideLinkRequest`; and a redemption by parent `P` of a code belonging
to a student `P` already has a row for — whatever its status, e.g. already
rejected — answers HTTP 400 with `success = false` and creates no row. -/
theorem redeemCode_pair_unique (db : DB) (P c : String) (now : Nat)
    (fid : String) (hpair : pairUnique db) :
    pairUnique (redeemCode db P c now fid).2 ∧
    (∀ cd, findValidByCode db c now = some cd →
      (∃ l ∈ db.parent_student_links,
        l.parentId = P ∧ l.studentId = cd.studentId) →
      redeemCode db P c now fid = (⟨400, false, duplicateLinkMsg⟩, db)) ∧
    (∀ rid s resp db2, decideLinkRequest db rid s = .ok (resp, db2) →
      pairUnique db2) := by
  refine ⟨?_, ?_, ?_⟩
  · cases hfind : findValidByCode db c now with
    | none => simpa only [redeemCode, hfind] using hpair
    | some cd =>
        simp only [redeemCode, hfind]
        by_cases hc : (db.parent_student_links.any
              (fun l => l.parentId == P && l.studentId == cd.studentId)
            || db.parent_student_links.any (fun l => l.id == fid)) = true
        · simpa only [if_pos hc] using hpair
        · simp only [if_neg hc]
          unfold pairUnique at hpair ⊢
          rw [List.pairwise_append]
          refine ⟨hpair, List.pairwise_singleton _ _, ?_⟩
          intro a ha b hb hab
          have hb' := List.mem_singleton.mp hb
          have h1 : db.parent_student_links.any
              (fun l => l.parentId == P && l.studentId == cd.studentId)
              = false := by
            cases h1 : db.parent_student_links.any
                (fun l => l.parentId == P && l.studentId == cd.studentId)
            · rfl
            · exact absurd (by rw [h1, Bool.true_or]) hc
          rw [List.any_eq_false] at h1
          refine h1 a ha ?_
          rw [hb'] at hab
          simp only [Bool.and_eq_true, beq_iff_eq]
          exact ⟨hab.1, hab.2⟩
  · intro cd hcd ⟨l, hl, hP, hS⟩
    have hany : db.parent_student_links.any
        (fun l' => l'.parentId == P && l'.studentId == cd.studentId)
        = true :=
      List.any_eq_true.mpr ⟨l, hl, by
        simp only [Bool.and_eq_true, beq_iff_eq]; exact ⟨hP, hS⟩⟩
    simp only [redeemCode, hcd, hany, Bool.true_or, ite_true]
  · intro rid s resp db2 hdec
    by_cases hs : s = "approved"
    · subst hs
      cases hfind : db.parent_student_links.find? (fun l => l.id == rid) with
      | none =>
          rw [(decideLinkRequest_unknown_id db rid hfind).1] at hdec
          exact absurd hdec (by simp)
      | some R =>
          rw [decideLinkRequest_approved db rid R hfind] at hdec
          obtain ⟨-, hdb⟩ := Prod.mk.injEq .. ▸ (Except.ok.inj hdec)
          rw [← hdb]
          exact pairwise_setStatus _ _ _ hpair
    · rw [decideLinkRequest_not_approved db rid s hs] at hdec
      obtain ⟨-, hdb⟩ := Prod.mk.injEq .. ▸ (Except.ok.inj hdec)
      rw [← hdb]
      exact pairwise_setStatus _ _ _ hpair

/-- Witness for C1: parent `P1`, already rejected for student `S1`, redeems
a still-valid code of `S1` and is refused with no new row. -/
theorem redeemCode_pair_unique_witness :
    redeemCode
      ⟨[⟨"i1", "S1", "STU-AAAAAA", 1000, false⟩],
       [⟨"L1", "P1", "S1", "rejected", 0⟩]⟩ "P1" "STU-AAAAAA" 5 "L2"
      = (⟨400, false, duplicateLinkMsg⟩,
        ⟨[⟨"i1", "S1", "STU-AAAAAA", 1000, false⟩],
         [⟨"L1", "P1", "S1", "rejected", 0⟩]⟩) :=
  ((redeemCode_pair_unique
      ⟨[⟨"i1", "S1", "STU-AAAAAA", 1000, false⟩],
       [⟨"L1", "P1", "S1", "rejected", 0⟩]⟩ "P1" "STU-AAAAAA" 5 "L2"
      (by unfold pairUnique; simp)).2.1)
    ⟨"i1", "S1", "STU-AAAAAA", 1000, false⟩ (by rfl)
    ⟨⟨"L1", "P1", "S1", "rejected", 0⟩, List.mem_singleton.mpr rfl, rfl, rfl⟩

/-! ### C3 -/

/-- C3: approving request `R` runs `UPDATE linking_codes SET used = 1
WHERE studentId = ?`, so afterwards every code row of `R`'s student — not
only the redeemed one — has `used = 1`, and redeeming any code string that
belongs to that student answers HTTP 400 with the invalid-code message and
changes nothing. -/
theorem approve_invalidates_student_codes (db : DB) (rid : String)
    (R : LinkRow) (resp : Resp) (db' : DB)
    (hR : db.parent_student_links.find? (fun l => l.id == rid) = some R)
    (hdec : decideLinkRequest db rid "approved" = .ok (resp, db')) :
    (∀ r ∈ db'.linking_codes, r.studentId = R.studentId → r.used = true) ∧
    (∀ P2 c2 now2 fid,
      (∀ r ∈ db.linking_codes, r.code = c2 → r.studentId = R.studentId) →
      redeemCode db' P2 c2 now2 fid = (⟨400, false, invalidCodeMsg⟩, db')) := by
  rw [decideLinkRequest_approved db rid R hR] at hdec
  obtain ⟨-, hdb⟩ := Prod.mk.injEq .. ▸ (Except.ok.inj hdec)
  subst hdb
  constructor
  · intro r hr hsid
    rcases List.mem_map.1 hr with ⟨r0, hr0, rfl⟩
    have h0 : r0.studentId = R.studentId := by simpa using hsid
    exact markUsedRow_used_of_eq _ _ h0
  · intro P2 c2 now2 fid hall
    have hnone : findValidByCode
        ⟨db.linking_codes.map (markUsedRow R.studentId),
         db.parent_student_links.map (setStatusRow rid "approved")⟩
        c2 now2 = none := by
      rw [findValidByCode, List.find?_eq_none]
      intro r hr hpred
      rcases List.mem_map.1 hr with ⟨r0, hr0, rfl⟩
      simp only [Bool.and_eq_true, beq_iff_eq, decide_eq_true_eq] at hpred
      have hc0 : r0.code = c2 := by simpa using hpred.1.1
      have hused : (markUsedRow R.studentId r0).used = true :=
        markUsedRow_used_of_eq _ _ (hall r0 hr0 hc0)
      exact Bool.noConfusion (hused.symm.trans hpred.1.2)
    simp only [redeemCode, hnone]

/-- Witness for C3: approving `L1` marks both of `S1`'s codes used, and the
second (never-redeemed) code is then refused. -/
theorem approve_invalidates_student_codes_witness :
    redeemCode
      ⟨[⟨"i1", "S1", "STU-AAAAAA", 1000, true⟩,
        ⟨"i2", "S1", "STU-BBBBBB", 1000, true⟩],
       [⟨"L1", "P1", "S1", "approved", 0⟩]⟩ "P2" "STU-BBBBBB" 5 "L9"
      = (⟨400, false, invalidCodeMsg⟩,
        ⟨[⟨"i1", "S1", "STU-AAAAAA", 1000, true⟩,
          ⟨"i2", "S1", "STU-BBBBBB", 1000, true⟩],
         [⟨"L1", "P1", "S1", "approved", 0⟩]⟩) :=
  (approve_invalidates_student_codes
    ⟨[⟨"i1", "S1", "STU-AAAAAA", 1000, false⟩,
      ⟨"i2", "S1", "STU-BBBBBB", 1000, false⟩],
     [⟨"L1", "P1", "S1", "pending", 0⟩]⟩ "L1"
    ⟨"L1", "P1", "S1", "pending", 0⟩ ⟨200, true, ""⟩
    ⟨[⟨"i1", "S1", "STU-AAAAAA", 1000, true⟩,
      ⟨"i2", "S1", "STU-BBBBBB", 1000, true⟩],
     [⟨"L1", "P1", "S1", "approved", 0⟩]⟩ (by rfl) (by rfl)).2
    "P2" "STU-BBBBBB" 5 "L9" (by decide)

/-- A row valid (owned, unused, unexpired) at a later instant was already
valid at any earlier instant. -/
lemma validAt_mono (S : String) (now1 now2 : Nat) (h12 : now1 ≤ now2)
    (c : LinkingCode)
    (h : (c.studentId == S && c.used == false
      && decide (now2 < c.expiresAt)) = true) :
    (c.studentId == S && c.used == false
      && decide (now1 < c.expiresAt)) = true := by
  simp only [Bool.and_eq_true, decide_eq_true_eq] at h ⊢
  exact ⟨h.1, lt_of_le_of_lt h12 h.2⟩

/-- If no row of the list is valid at `now1`, none is valid at a later
`now2`. -/
lemma find?_valid_none_mono (ls : List LinkingCode) (S : String)
    (now1 now2 : Nat) (h12 : now1 ≤ now2)
    (h : ls.find? (fun c => c.studentId == S && c.used == false
      && decide (now1 < c.expiresAt)) = none) :
    ls.find? (fun c => c.studentId == S && c.used == false
      && decide (now2 < c.expiresAt)) = none := by
  rw [List.find?_eq_none] at h ⊢
  intro c hc hp
  exact h c hc (validAt_mono S now1 now2 h12 c hp)

/-- If every `q`-match is also a `p`-match, the first `p`-match, when it
satisfies `q`, is also the first `q`-match. -/
lemma find?_first_mono (p q : LinkingCode → Bool) (ls : List LinkingCode)
    (x : LinkingCode) (himp : ∀ a, q a = true → p a = true)
    (h : ls.find? p = some x) (hq : q x = true) :
    ls.find? q = some x := by
  induction ls with
  | nil => exact absurd h (by simp)
  | cons a t ih =>
    by_cases hpa : p a = true
    · rw [List.find?_cons_of_pos t hpa] at h
      obtain rfl := Option.some.inj h
      rw [List.find?_cons_of_pos t hq]
    · rw [List.find?_cons_of_neg t hpa] at h
      have hqa : ¬ q a = true := fun hh => hpa (himp a hh)
      rw [List.find?_cons_of_neg t hqa]
      exact ih h

/-- The first row valid at `now1` is still the first row valid at a later
`now2`, provided it has not expired by then. -/
lemma find?_valid_mono (ls : List LinkingCode) (S : String)
    (now1 now2 : Nat) (h12 : now1 ≤ now2) (x : LinkingCode)
    (h : ls.find? (fun c => c.studentId == S && c.used == false
      && decide (now1 < c.expiresAt)) = some x)
    (hx : now2 < x.expiresAt) :
    ls.find? (fun c => c.studentId == S && c.used == false
      && decide (now2 < c.expiresAt)) = some x := by
  refine find?_first_mono _ _ ls x
    (fun a => validAt_mono S now1 now2 h12 a) h ?_
  have h1 := List.find?_some h
  simp only [Bool.and_eq_true, decide_eq_true_eq] at h1 ⊢
  exact ⟨h1.1, hx⟩

/-! ### C5 -/

/-- C5: issuance is idempotent inside the validity window — if a first
`requestCode` call returns `(c, e)` and a second call for the same student
comes no earlier and before `e` has passed, the second call returns the
identical code and `expiresAt` and leaves the store exactly as it was. -/
theorem requestCode_idempotent (db : DB) (S : String) (now1 now2 : Nat)
    (g1 i1 g2 i2 : String) (r : Resp) (c : String) (e : Nat) (db1 : DB)
    (h12 : now1 ≤ now2)
    (h1 : requestCode db S now1 g1 i1 = .ok (r, c, e, db1))
    (h2 : now2 < e) :
    requestCode db1 S now2 g2 i2 = .ok (⟨200, true, ""⟩, c, e, db1) := by
  cases hfind : findValidForStudent db S now1 with
  | some ex =>
      simp only [requestCode, hfind] at h1
      simp only [Except.ok.injEq, Prod.mk.injEq] at h1
      obtain ⟨-, h1b, h1c, h1d⟩ := h1
      subst h1b h1c h1d
      have hfind2 : findValidForStudent db S now2 = some ex := by
        rw [findValidForStudent] at hfind ⊢
        exact find?_valid_mono _ _ _ _ h12 _ hfind h2
      simp only [requestCode, hfind2]
  | none =>
      simp only [requestCode, hfind] at h1
      by_cases hcol : (db.linking_codes.any (fun x => x.code == g1)
          || db.linking_codes.any (fun x => x.id == i1)) = true
      · rw [if_pos hcol] at h1
        exact absurd h1 (by simp)
      · rw [if_neg hcol] at h1
        simp only [Except.ok.injEq, Prod.mk.injEq] at h1
        obtain ⟨-, h1b, h1c, h1d⟩ := h1
        subst h1b h1c h1d
        have hfind2 : findValidForStudent
            { db with linking_codes := db.linking_codes
              ++ [⟨i1, S, g1, now1 + dayMs, false⟩] } S now2
            = some ⟨i1, S, g1, now1 + dayMs, false⟩ := by
          rw [findValidForStudent]
          show List.find?
            (fun c => c.studentId == S && c.used == false
              && decide (now2 < c.expiresAt))
            (db.linking_codes
              ++ [(⟨i1, S, g1, now1 + dayMs, false⟩ : LinkingCode)])
            = some (⟨i1, S, g1, now1 + dayMs, false⟩ : LinkingCode)
          rw [List.find?_append]
          have hn : db.linking_codes.find?
              (fun x => x.studentId == S && x.used == false
                && decide (now2 < x.expiresAt)) = none := by
            rw [findValidForStudent] at hfind
            exact find?_valid_none_mono _ _ _ _ h12 hfind
          rw [hn]
          simp [h2]
        simp only [requestCode, hfind2]

/-- Witness for C5: a second call 5 ms after the first returns the same code
and expiry and inserts nothing. -/
theorem requestCode_idempotent_witness :
    requestCode ⟨[⟨"i1", "S1", "STU-AAAAAA", 86400000, false⟩], []⟩ "S1" 5
        "STU-BBBBBB" "i2"
      = .ok (⟨200, true, ""⟩, "STU-AAAAAA", 86400000,
        ⟨[⟨"i1", "S1", "STU-AAAAAA", 86400000, false⟩], []⟩) :=
  requestCode_idempotent ⟨[], []⟩ "S1" 0 5 "STU-AAAAAA" "i1" "STU-BBBBBB"
    "i2" ⟨200, true, ""⟩ "STU-AAAAAA" 86400000
    ⟨[⟨"i1", "S1", "STU-AAAAAA", 86400000, false⟩], []⟩
    (by decide) (by rfl) (by decide)

/-! ### C8 -/

/-- C8: rejecting a request touches nothing but the matched row's status —
`linking_codes` is bit-for-bit unchanged, every other link row is unchanged,
and every later `redeemCode` (any parent, any code, any time) gets exactly
the response it would have gotten before the rejection. -/
theorem reject_changes_only_status (db : DB) (rid : String) (r : Resp)
    (db' : DB)
    (h : decideLinkRequest db rid "rejected" = .ok (r, db')) :
    r = ⟨200, true, ""⟩ ∧
    db'.linking_codes = db.linking_codes ∧
    (∀ l ∈ db'.parent_student_links, l.id ≠ rid →
      l ∈ db.parent_student_links) ∧
    (∀ l ∈ db'.parent_student_links, l.id = rid → l.status = "rejected") ∧
    (∀ P2 c2 now2 fid,
      (redeemCode db' P2 c2 now2 fid).1 = (redeemCode db P2 c2 now2 fid).1)
    := by
  rw [decideLinkRequest_not_approved db rid "rejected" (by decide)] at h
  obtain ⟨hr, hdb⟩ := Prod.mk.injEq .. ▸ (Except.ok.inj h)
  subst hdb
  refine ⟨hr.symm, rfl, ?_, ?_, ?_⟩
  · intro l hl hne
    rcases List.mem_map.1 hl with ⟨l0, hl0, rfl⟩
    have hne0 : ¬ l0.id = rid := by simpa using hne
    rw [setStatusRow_of_ne _ _ _ hne0]
    exact hl0
  · intro l hl hid
    exact status_of_mem_map_setStatus _ _ _ _ hl hid
  · intro P2 c2 now2 fid
    have hfv : findValidByCode
        ⟨db.linking_codes,
         db.parent_student_links.map (setStatusRow rid "rejected")⟩ c2 now2
        = findValidByCode db c2 now2 := rfl
    cases hf : findValidByCode db c2 now2 with
    | none => simp only [redeemCode, hfv, hf]
    | some cd =>
        have hany1 : (db.parent_student_links.map
              (setStatusRow rid "rejected")).any
              (fun l => l.parentId == P2 && l.studentId == cd.studentId)
            = db.parent_student_links.any
              (fun l => l.parentId == P2 && l.studentId == cd.studentId) := by
          rw [List.any_map]
          congr 1
          funext l
          simp
        have hany2 : (db.parent_student_links.map
              (setStatusRow rid "rejected")).any (fun l => l.id == fid)
            = db.parent_student_links.any (fun l => l.id == fid) := by
          rw [List.any_map]
          congr 1
          funext l
          simp
        simp only [redeemCode, hfv, hf, hany1, hany2]
        split <;> rfl

/-- Witness for C8: rejecting `L1` keeps `S1`'s code row untouched and a
later redemption by `P2` gets the same (successful) response as before. -/
theorem reject_changes_only_status_witness :
    (⟨200, true, ""⟩ : Resp) = ⟨200, true, ""⟩ ∧
    (⟨[⟨"i1", "S1", "STU-AAAAAA", 1000, false⟩],
      [⟨"L1", "P1", "S1", "rejected", 0⟩]⟩ : DB).linking_codes
      = (⟨[⟨"i1", "S1", "STU-AAAAAA", 1000, false⟩],
         [⟨"L1", "P1", "S1", "pending", 0⟩]⟩ : DB).linking_codes :=
  have h := reject_changes_only_status
    ⟨[⟨"i1", "S1", "STU-AAAAAA", 1000, false⟩],
     [⟨"L1", "P1", "S1", "pending", 0⟩]⟩ "L1" ⟨200, true, ""⟩
    ⟨[⟨"i1", "S1", "STU-AAAAAA", 1000, false⟩],
     [⟨"L1", "P1", "S1", "rejected", 0⟩]⟩ (by rfl)
  ⟨h.1, h.2.1⟩

/-! ### C9 -/

/-- C9: when the student has no unused, unexpired code row, a successful
`requestCode` returns exactly the freshly generated code with
`expiresAt = now + 24h`, that code differs from every `code` value already
stored (the `UNIQUE` constraint would otherwise have aborted the INSERT),
and the new row is appended to `linking_codes`. -/
theorem requestCode_generates_fresh (db : DB) (S : String) (now : Nat)
    (g i : String) (r : Resp) (c : String) (e : Nat) (db' : DB)
    (hnov : findValidForStudent db S now = none)
    (h : requestCode db S now g i = .ok (r, c, e, db')) :
    c = g ∧ e = now + dayMs ∧
    (∀ p ∈ db.linking_codes, ¬ p.code = c) ∧
    db'.linking_codes = db.linking_codes ++ [⟨i, S, g, now + dayMs, false⟩]
    := by
  simp only [requestCode, hnov] at h
  by_cases hcol : (db.linking_codes.any (fun x => x.code == g)
      || db.linking_codes.any (fun x => x.id == i)) = true
  · rw [if_pos hcol] at h
    exact absurd h (by simp)
  · rw [if_neg hcol] at h
    simp only [Except.ok.injEq, Prod.mk.injEq] at h
    obtain ⟨-, hc, he, hdb⟩ := h
    have hany : db.linking_codes.any (fun x => x.code == g) = false := by
      cases hh : db.linking_codes.any (fun x => x.code == g)
      · rfl
      · exact absurd (by rw [hh, Bool.true_or]) hcol
    rw [List.any_eq_false] at hany
    refine ⟨hc.symm, he.symm, ?_, ?_⟩
    · intro p hp hpc
      exact hany p hp (beq_iff_eq.mpr (hpc.trans hc.symm))
    · rw [← hdb]

/-- Witness for C9: after `S1`'s old code expired, issuance at t = 20 ms
returns the new code, which differs from the stored old one, and appends
the new row. -/
theorem requestCode_generates_fresh_witness :
    ¬ (⟨"i0", "S1", "STU-OLDOLD", 10, false⟩ : LinkingCode).code
        = "STU-NEWNEW" ∧
    (⟨[⟨"i0", "S1", "STU-OLDOLD", 10, false⟩,
       ⟨"i1", "S1", "STU-NEWNEW", 86400020, false⟩], []⟩ : DB).linking_codes
      = [⟨"i0", "S1", "STU-OLDOLD", 10, false⟩]
        ++ [⟨"i1", "S1", "STU-NEWNEW", 86400020, false⟩] :=
  have h := requestCode_generates_fresh
    ⟨[⟨"i0", "S1", "STU-OLDOLD", 10, false⟩], []⟩ "S1" 20 "STU-NEWNEW" "i1"
    ⟨200, true, ""⟩ "STU-NEWNEW" 86400020
    ⟨[⟨"i0", "S1", "STU-OLDOLD", 10, false⟩,
      ⟨"i1", "S1", "STU-NEWNEW", 86400020, false⟩], []⟩ (by rfl) (by rfl)
  ⟨h.2.2.1 ⟨"i0", "S1", "STU-OLDOLD", 10, false⟩ (by simp), h.2.2.2⟩

/-! ### C10 -/

/-- C10: `listPending` returns exactly the student's pending link rows that
find a matching `users` row for their `parentId`, each augmented with that
parent's `fullName` and `email`; a pending row whose parent has no `users`
row (e.g. after account deletion) yields no entry. -/
theorem listPending_spec (users : List UserRow) (db : DB) (S : String)
    (v : PendingView) :
    v ∈ listPending users db S ↔
      ∃ l ∈ db.parent_student_links,
        l.studentId = S ∧ l.status = "pending" ∧
        ∃ u, users.find? (fun x => x.id == l.parentId) = some u ∧
          v = ⟨l.id, l.parentId, l.studentId, l.status, l.createdAt,
            u.fullName, u.email⟩ := by
  simp only [listPending, List.mem_filterMap, List.mem_filter,
    Option.map_eq_some', Bool.and_eq_true, beq_iff_eq]
  constructor
  · rintro ⟨l, ⟨hl, hS, hp⟩, u, hu, rfl⟩
    exact ⟨l, hl, hS, hp, u, hu, rfl⟩
  · rintro ⟨l, hl, hS, hp, u, hu, rfl⟩
    exact ⟨l, ⟨hl, hS, hp⟩, u, hu, rfl⟩
